import Mathlib

/-!
Verification of `bulk_filigrane` (src/src/bulk_filigrane/main.py).

The program uploads local files to a remote watermarking service, polls for
completion and downloads the result.  We embed the core pipeline shallowly:

* the remote service and the local file system are an environment `JobEnv`
  describing the outcome of each external call (upload POST, each poll GET,
  the download GET, the output write);
* `upload_files`, `poll_until_ready`, `download_document` and `process_files`
  mirror the Python functions of the same names;
* `main_per_file` and `main_aggregate` mirror the two dispatch branches of
  `main` (the thread pool is modelled by running the jobs in completion
  order, given as a list `order`: a job's outcome does not depend on the
  shared file-system state, so any interleaving yields the same outcome
  list, and the claims below are stated for every completion order);
* Python exceptions are `Except String`; an exception escaping a function is
  the `.error` branch of its result.
-/

deriving instance DecidableEq for Except

namespace BulkFiligrane

/-- Document bytes (`r.content`). -/
abbrev ByteSeq := List Nat

/-- The local file system: path to optional content. -/
abbrev FS := String → Option ByteSeq

def emptyFS : FS := fun _ => none

/-- Writing `open(path, "wb"); f.write(content)`: replaces any existing file. -/
def setFile (fs : FS) (path : String) (content : ByteSeq) : FS :=
  fun q => if q = path then some content else fs q

/-- Open file handles, as a bag counting the open handles per file path. -/
abbrev Handles := String → Nat

def hEmpty : Handles := fun _ => 0

/-- Opening `open(file, "rb")` succeeded: one more handle on `file`. -/
def openHandle (hs : Handles) (file : String) : Handles :=
  fun q => if q = file then hs file + 1 else hs q

/-- Closing `fh.close()`: one fewer handle on the handle's file. -/
def closeHandle (hs : Handles) (file : String) : Handles :=
  fun q => if q = file then hs file - 1 else hs q

/-- Environment of one job: outcome of each external call it may make.
Fields, in the order the calls happen:
* `openFails file = some e`: `open(file, "rb")` raises with message `e`;
* `postResult`: the upload POST — `.error e` is a transport error,
  non-success status or malformed JSON body; `.ok tok` is a JSON body whose
  `token` field is `tok` (`none` when the field is missing, since
  `r.json().get("token")` returns `None` then);
* `poll i`: the `i`-th poll GET — `some u` is a successful JSON response
  whose `url` field is `u`; `none` is a transport error, timeout,
  non-success status, malformed body or a body without a `url` field
  (the code treats all of these identically: ignore and retry);
* `download`: the result GET — `.error e` or the response bytes;
* `writeFails`: whether `open(out_path, "wb")` raises. -/
structure JobEnv where
  openFails : String → Option String
  postResult : Except String (Option String)
  poll : Nat → Option String
  download : Except String ByteSeq
  writeFails : Bool

/-! ## upload_files -/

/-- The `for file in files` loop of `upload_files`: open each file and
record it in `file_handles`.  Returns the handle state, the accumulated
`file_handles` list, and the exception of the first failing `open`, if any.
(`CONTENT_TYPES[ext]` cannot fail here: callers only pass supported files.) -/
def openLoop (env : JobEnv) : Handles → List String → List String →
    Handles × List String × Option String
  | hs, acc, [] => (hs, acc, none)
  | hs, acc, file :: rest =>
    match env.openFails file with
    | some e => (hs, acc, some e)
    | none => openLoop env (openHandle hs file) (acc ++ [file]) rest

/-- The `finally` block: `for fh in file_handles: fh.close()`. -/
def closeAll : Handles → List String → Handles
  | hs, [] => hs
  | hs, file :: rest => closeAll (closeHandle hs file) rest

/-- Function `upload_files(files, watermark)`.  Opens the files, performs the POST,
and in every case runs the `finally` block closing every recorded handle.
Returns `.ok tok` (the `token` field of the JSON response, possibly absent)
or `.error e` (an `open` or the POST raised), together with the final
handle state. -/
def upload_files (env : JobEnv) (files : List String) (hs : Handles) :
    Except String (Option String) × Handles :=
  let r := openLoop env hs [] files
  let result : Except String (Option String) :=
    match r.2.2 with
    | some e => .error e
    | none =>
      match env.postResult with
      | .error e => .error e
      | .ok tok => .ok tok
  (result, closeAll r.1 r.2.1)

/-- The value `upload_files` returns to `process_files` (handles start and
end scoped to the call). -/
def uploadResult (env : JobEnv) (files : List String) :
    Except String (Option String) :=
  (upload_files env files hEmpty).1

/-! ## poll_until_ready -/

/-- The `for _ in range(timeout_sec // 3)` loop, from attempt index `i` with
`fuel` attempts left.  Returns the result (`data["url"]` of the first
successful response carrying a `url` field, else `None`), the number of
poll GETs made, and the total units slept (`time.sleep(3)` after every
attempt that did not return). -/
def pollLoop (poll : Nat → Option String) : Nat → Nat → Option String × Nat × Nat
  | _, 0 => (none, 0, 0)
  | i, fuel + 1 =>
    match poll i with
    | some url => (some url, 1, 0)
    | none =>
      let rest := pollLoop poll (i + 1) fuel
      (rest.1, rest.2.1 + 1, rest.2.2 + 3)

/-- Function `poll_until_ready(token, timeout_sec)` (the token only forms the
URL; the responses are `poll`). -/
def poll_until_ready (poll : Nat → Option String) (timeout_sec : Nat) :
    Option String × Nat × Nat :=
  pollLoop poll 0 (timeout_sec / 3)

/-! ## download_document -/

/-- Function `download_document(token, out_path)`.  A failing GET is caught and
reported as `False`; a successful GET writes the bytes to `out_path`
(`.error` when that write raises — it is outside the `try`). -/
def download_document (env : JobEnv) (out_path : String) (fs : FS) :
    Except String (Bool × FS) :=
  match env.download with
  | .error _ => .ok (false, fs)
  | .ok content =>
    if env.writeFails then .error ("write failed: " ++ out_path)
    else .ok (true, setFile fs out_path content)

/-! ## process_files -/

/-- The `result` dict of `process_files`: `files` is the value of its
`"files"` key (`none` models a dict without that key, such as the
scheduler's fallback dict `\x7b"file": None, ...\x7d`). -/
structure JobOutcome where
  files : Option (List String)
  success : Bool
  msg : String
  deriving DecidableEq

/-- External calls a job performed: the token it polled with (`none` when it
never polled), the number of poll GETs, the units slept between polls, and
the number of download GETs. -/
structure JobTrace where
  polledWith : Option (Option String)
  pollAttempts : Nat
  sleepUnits : Nat
  fetchCalls : Nat
  deriving DecidableEq

/-- Python `if not url`: true for `None` and for the empty string. -/
def urlFalsy : Option String → Bool
  | none => true
  | some s => s == ""

/-- Function `process_files(files, watermark, output_file_path)`.  `.error` is an
exception escaping the function (only the output write can raise one:
upload exceptions are caught here, poll exceptions inside the loop,
download GET exceptions inside `download_document`). -/
def process_files (env : JobEnv) (files : List String)
    (output_file_path : String) (fs : FS) :
    Except String JobOutcome × FS × JobTrace :=
  match uploadResult env files with
  | .error e =>
    (.ok ⟨some files, false, "upload failed: " ++ e⟩, fs, ⟨none, 0, 0, 0⟩)
  | .ok tok =>
    let pr := poll_until_ready env.poll 60
    if urlFalsy pr.1 then
      (.ok ⟨some files, false, "timeout"⟩, fs, ⟨some tok, pr.2.1, pr.2.2, 0⟩)
    else
      match download_document env output_file_path fs with
      | .error e => (.error e, fs, ⟨some tok, pr.2.1, pr.2.2, 1⟩)
      | .ok (false, fs1) =>
        (.ok ⟨some files, false, "download failed"⟩, fs1,
         ⟨some tok, pr.2.1, pr.2.2, 1⟩)
      | .ok (true, fs1) =>
        (.ok ⟨some files, true, output_file_path⟩, fs1,
         ⟨some tok, pr.2.1, pr.2.2, 1⟩)

/-! ## main: the two dispatch branches and the report -/

/-- Calling `future.result()` under the scheduler's `try`: a worker exception
becomes the fallback dict whose keys are `"file"` (holding `None`),
`"success"` (`False`) and `"msg"` (the text `error: ` plus the cause). -/
def collectOutcome : Except String JobOutcome → JobOutcome
  | .ok o => o
  | .error e => ⟨none, false, "error: " ++ e⟩

/-- The per-file branch of `main`: one job per file, output path
`output_dir / file.name`, outcomes collected in completion order `order`
(a permutation of the accepted files). -/
def main_per_file (envOf : String → JobEnv) (outputDir : String) :
    List String → FS → List JobOutcome × FS
  | [], fs => ([], fs)
  | file :: rest, fs =>
    let r := process_files (envOf file) [file] (outputDir ++ "/" ++ file) fs
    let tail := main_per_file envOf outputDir rest r.2.1
    (collectOutcome r.1 :: tail.1, tail.2)

/-- The aggregate branch of `main`: `results = [process_files(files,
watermark, out_path)]`, with no exception handling around the call — an
escaping exception terminates the run (`.error`). -/
def main_aggregate (env : JobEnv) (files : List String) (outPath : String)
    (fs : FS) : Except String (List JobOutcome × FS) :=
  match process_files env files outPath fs with
  | (.ok o, fs1, _) => .ok ([o], fs1)
  | (.error e, _, _) => .error e

/-- Computing `",".join(r["files"]) if r.get("files") else "???"` (a missing
key and an empty list are both falsy). -/
def fileNamesField (o : JobOutcome) : String :=
  match o.files with
  | some (n :: rest) => String.intercalate "," (n :: rest)
  | _ => "???"

/-- One line of the final report. -/
def reportLine (o : JobOutcome) : String :=
  (if o.success then "  ✅ " else "  ❌ ") ++ fileNamesField o ++ ": " ++ o.msg

/-- The `📄 Results:` loop: one line per collected outcome. -/
def finalReport (results : List JobOutcome) : List String :=
  results.map reportLine

/-- The outcome the scheduler records for one per-file job (the outcome of
`process_files` does not depend on the file-system state, proved below). -/
def perFileOutcome (envOf : String → JobEnv) (outputDir : String)
    (file : String) : JobOutcome :=
  collectOutcome
    (process_files (envOf file) [file] (outputDir ++ "/" ++ file) emptyFS).1

/-! ## Concrete environments used to instantiate the theorems -/

/-- Every call succeeds; the poll is ready at once. -/
def envHappy : JobEnv :=
  ⟨fun _ => none, .ok (some "tok"), fun _ => some "http://res", .ok [7, 7], false⟩

/-- The upload POST raises. -/
def envUploadRaises : JobEnv :=
  ⟨fun _ => none, .error "boom", fun _ => none, .error "x", false⟩

/-- The upload succeeds but the JSON body has no `token` field. -/
def envNoToken : JobEnv :=
  ⟨fun _ => none, .ok none, fun _ => none, .error "x", false⟩

/-- The poll never reports ready. -/
def envNeverReady : JobEnv :=
  ⟨fun _ => none, .ok (some "tok"), fun _ => none, .error "x", false⟩

/-- The poll reports ready with an empty `url` value. -/
def envEmptyUrl : JobEnv :=
  ⟨fun _ => none, .ok (some "tok"), fun _ => some "", .error "x", false⟩

/-- The download GET raises. -/
def envDownloadRaises : JobEnv :=
  ⟨fun _ => none, .ok (some "tok"), fun _ => some "http://res", .error "dderr", false⟩

/-- Everything succeeds but writing the output raises. -/
def envWriteRaises : JobEnv :=
  ⟨fun _ => none, .ok (some "tok"), fun _ => some "http://res", .ok [7, 7], true⟩

/-! ## Helper lemmas -/

theorem closeAll_apply (l : List String) (hs : Handles) (q : String) :
    closeAll hs l q = hs q - l.count q := by
  induction l generalizing hs with
  | nil => simp [closeAll]
  | cons f rest ih =>
    simp only [closeAll, ih, List.count_cons, closeHandle]
    by_cases hq : q = f
    · subst hq
      simp
      omega
    · have hb2 : (f == q) = false := by
        simp only [beq_eq_false_iff_ne, ne_eq]
        exact fun h => hq h.symm
      simp [closeHandle, if_neg hq, hb2]

theorem openLoop_apply (env : JobEnv) (fls : List String) (hs : Handles)
    (acc : List String) (q : String) :
    (openLoop env hs acc fls).1 q + acc.count q
      = hs q + (openLoop env hs acc fls).2.1.count q := by
  induction fls generalizing hs acc with
  | nil => simp [openLoop]
  | cons file rest ih =>
    simp only [openLoop]
    cases env.openFails file with
    | some e => simp
    | none =>
      simp only
      have h := ih (openHandle hs file) (acc ++ [file])
      rw [List.count_append] at h
      by_cases hq : q = file
      · subst hq
        simp [openHandle] at h ⊢
        omega
      · have hb : ¬ (q == file) = true := by
          simpa using hq
        simp [openHandle, hq, hb] at h ⊢
        omega

/-- C8: for every submit call, every file handle opened for the upload is
released on every exit path — whether the call returns a token, a file
fails to open, or the HTTP request fails: the handle state after
`upload_files` equals the handle state before it, so no handle is left
open by the call. -/
theorem c8_upload_releases_all_handles (env : JobEnv) (files : List String)
    (hs : Handles) : (upload_files env files hs).2 = hs := by
  funext q
  show closeAll (openLoop env hs [] files).1 (openLoop env hs [] files).2.1 q = hs q
  rw [closeAll_apply]
  have h := openLoop_apply env files hs [] q
  simp at h
  omega

theorem pollLoop_all_none (poll : Nat → Option String) (fuel i : Nat)
    (h : ∀ j, j < fuel → poll (i + j) = none) :
    pollLoop poll i fuel = (none, fuel, 3 * fuel) := by
  induction fuel generalizing i with
  | zero => simp [pollLoop]
  | succ n ih =>
    have h0 : poll i = none := by simpa using h 0 (Nat.succ_pos n)
    simp only [pollLoop, h0]
    rw [ih (i + 1) (fun j hj => by
      have := h (j + 1) (Nat.succ_lt_succ hj)
      simpa [Nat.add_assoc, Nat.add_comm 1 j] using this)]
    simp
    omega

theorem pollLoop_first (poll : Nat → Option String) (fuel i k : Nat)
    (u : String) (hk : k < fuel) (hu : poll (i + k) = some u)
    (hbefore : ∀ j, j < k → poll (i + j) = none) :
    pollLoop poll i fuel = (some u, k + 1, 3 * k) := by
  induction fuel generalizing i k with
  | zero => omega
  | succ n ih =>
    cases k with
    | zero =>
      have : poll i = some u := by simpa using hu
      simp [pollLoop, this]
    | succ m =>
      have h0 : poll i = none := by simpa using hbefore 0 (Nat.succ_pos m)
      simp only [pollLoop, h0]
      rw [ih (i + 1) m (by omega)
        (by rw [show i + 1 + m = i + (m + 1) by omega]; exact hu)
        (fun j hj => by
          rw [show i + 1 + j = i + (j + 1) by omega]
          exact hbefore (j + 1) (Nat.succ_lt_succ hj))]
      simp
      omega

theorem poll_until_ready_all_none (poll : Nat → Option String) (t : Nat)
    (h : ∀ j, poll j = none) :
    poll_until_ready poll t = (none, t / 3, 3 * (t / 3)) :=
  pollLoop_all_none poll (t / 3) 0 (fun j _ => by simpa using h j)

/-- The outcome (or escaping exception) of `process_files` does not depend
on the file-system state. -/
theorem process_files_fst_indep (env : JobEnv) (files : List String)
    (p : String) (fs fs2 : FS) :
    (process_files env files p fs).1 = (process_files env files p fs2).1 := by
  unfold process_files download_document
  cases uploadResult env files with
  | error e => rfl
  | ok tok =>
    simp only
    by_cases hurl : urlFalsy (poll_until_ready env.poll 60).1 = true
    · simp [hurl]
    · simp only [Bool.not_eq_true] at hurl
      simp only [hurl]
      cases env.download with
      | error e => simp
      | ok content =>
        cases hw : env.writeFails <;> simp [hw]

/-- The trace of `process_files` does not depend on the file-system state. -/
theorem process_files_trace_indep (env : JobEnv) (files : List String)
    (p : String) (fs fs2 : FS) :
    (process_files env files p fs).2.2 = (process_files env files p fs2).2.2 := by
  unfold process_files download_document
  cases uploadResult env files with
  | error e => rfl
  | ok tok =>
    simp only
    by_cases hurl : urlFalsy (poll_until_ready env.poll 60).1 = true
    · simp [hurl]
    · simp only [Bool.not_eq_true] at hurl
      simp only [hurl]
      cases env.download with
      | error e => simp
      | ok content =>
        cases hw : env.writeFails <;> simp [hw]

/-- One equation per branch of `process_files`: the upload-failure branch. -/
theorem pf_upload_error (env : JobEnv) (files : List String) (p : String)
    (fs : FS) (e : String) (h : uploadResult env files = .error e) :
    process_files env files p fs
      = (.ok ⟨some files, false, "upload failed: " ++ e⟩, fs, ⟨none, 0, 0, 0⟩) := by
  simp [process_files, h]

/-- The timeout branch (`if not url`, for `None` and for `""`). -/
theorem pf_timeout (env : JobEnv) (files : List String) (p : String)
    (fs : FS) (tok : Option String)
    (h : uploadResult env files = .ok tok)
    (hurl : urlFalsy (poll_until_ready env.poll 60).1 = true) :
    process_files env files p fs
      = (.ok ⟨some files, false, "timeout"⟩, fs,
         ⟨some tok, (poll_until_ready env.poll 60).2.1,
          (poll_until_ready env.poll 60).2.2, 0⟩) := by
  simp [process_files, h, hurl]

/-- The failed-download branch. -/
theorem pf_download_error (env : JobEnv) (files : List String) (p : String)
    (fs : FS) (tok : Option String) (d : String)
    (h : uploadResult env files = .ok tok)
    (hurl : urlFalsy (poll_until_ready env.poll 60).1 = false)
    (hd : env.download = .error d) :
    process_files env files p fs
      = (.ok ⟨some files, false, "download failed"⟩, fs,
         ⟨some tok, (poll_until_ready env.poll 60).2.1,
          (poll_until_ready env.poll 60).2.2, 1⟩) := by
  simp [process_files, h, hurl, download_document, hd]

/-- The branch where the output write raises: the exception escapes. -/
theorem pf_write_error (env : JobEnv) (files : List String) (p : String)
    (fs : FS) (tok : Option String) (content : ByteSeq)
    (h : uploadResult env files = .ok tok)
    (hurl : urlFalsy (poll_until_ready env.poll 60).1 = false)
    (hd : env.download = .ok content) (hw : env.writeFails = true) :
    process_files env files p fs
      = (.error ("write failed: " ++ p), fs,
         ⟨some tok, (poll_until_ready env.poll 60).2.1,
          (poll_until_ready env.poll 60).2.2, 1⟩) := by
  simp [process_files, h, hurl, download_document, hd, hw]

/-- The success branch. -/
theorem pf_success (env : JobEnv) (files : List String) (p : String)
    (fs : FS) (tok : Option String) (content : ByteSeq)
    (h : uploadResult env files = .ok tok)
    (hurl : urlFalsy (poll_until_ready env.poll 60).1 = false)
    (hd : env.download = .ok content) (hw : env.writeFails = false) :
    process_files env files p fs
      = (.ok ⟨some files, true, p⟩, setFile fs p content,
         ⟨some tok, (poll_until_ready env.poll 60).2.1,
          (poll_until_ready env.poll 60).2.2, 1⟩) := by
  simp [process_files, h, hurl, download_document, hd, hw]

/-- A poll loop with a positive budget makes at least one attempt. -/
theorem pollLoop_pos (poll : Nat → Option String) (i n : Nat) :
    1 ≤ (pollLoop poll i (n + 1)).2.1 := by
  simp only [pollLoop]
  cases poll i with
  | some url => simp
  | none => simp

/-- The outcome list of the per-file branch: one recorded outcome per
dispatched job, in completion order, independent of file-system state. -/
theorem main_per_file_results (envOf : String → JobEnv) (outputDir : String)
    (order : List String) (fs : FS) :
    (main_per_file envOf outputDir order fs).1
      = order.map (perFileOutcome envOf outputDir) := by
  induction order generalizing fs with
  | nil => simp [main_per_file]
  | cons file rest ih =>
    simp only [main_per_file, List.map_cons]
    rw [ih]
    simp [perFileOutcome,
      process_files_fst_indep (envOf file) [file]
        (outputDir ++ "/" ++ file) fs emptyFS]

/-- Whenever the upload returns (with or without a token field), the Job
proceeds to poll with the returned token value. -/
theorem process_files_polls_after_upload (env : JobEnv) (files : List String)
    (p : String) (fs : FS) (tok : Option String)
    (h : uploadResult env files = .ok tok) :
    (process_files env files p fs).2.2.polledWith = some tok
    ∧ (process_files env files p fs).2.2.pollAttempts
        = (poll_until_ready env.poll 60).2.1 := by
  cases hurl : urlFalsy (poll_until_ready env.poll 60).1 with
  | true => rw [pf_timeout env files p fs tok h hurl]; exact ⟨rfl, rfl⟩
  | false =>
    cases hd : env.download with
    | error d =>
      rw [pf_download_error env files p fs tok d h hurl hd]
      exact ⟨rfl, rfl⟩
    | ok content =>
      cases hw : env.writeFails with
      | true =>
        rw [pf_write_error env files p fs tok content h hurl hd hw]
        exact ⟨rfl, rfl⟩
      | false =>
        rw [pf_success env files p fs tok content h hurl hd hw]
        exact ⟨rfl, rfl⟩

/-- The default poll budget performs at least one attempt. -/
theorem poll_until_ready_attempts_pos (poll : Nat → Option String) :
    1 ≤ (poll_until_ready poll 60).2.1 :=
  pollLoop_pos poll 0 19

/-- Only a raising output write lets an exception escape `process_files`:
when the write does not raise, the job always delivers an outcome. -/
theorem process_files_ok_of_no_write_failure (env : JobEnv)
    (files : List String) (p : String) (fs : FS)
    (hw : env.writeFails = false) :
    ∃ o, (process_files env files p fs).1 = .ok o := by
  cases hup : uploadResult env files with
  | error e =>
    exact ⟨_, by rw [pf_upload_error env files p fs e hup]⟩
  | ok tok =>
    cases hurl : urlFalsy (poll_until_ready env.poll 60).1 with
    | true => exact ⟨_, by rw [pf_timeout env files p fs tok hup hurl]⟩
    | false =>
      cases hd : env.download with
      | error d =>
        exact ⟨_, by rw [pf_download_error env files p fs tok d hup hurl hd]⟩
      | ok content =>
        exact ⟨_, by rw [pf_success env files p fs tok content hup hurl hd hw]⟩

/-! ## Claims -/

/-- C5: a Job whose submit call fails makes no poll and no fetch call, and
its outcome has `success = false` with message "upload failed: " followed
by the cause — i.e. starting with "upload failed:". -/
theorem c5_submit_failure_short_circuits (env : JobEnv) (files : List String)
    (p : String) (fs : FS) (e : String)
    (h : uploadResult env files = .error e) :
    (process_files env files p fs).1
        = .ok ⟨some files, false, "upload failed: " ++ e⟩
    ∧ "upload failed: " ++ e = "upload failed:" ++ (" " ++ e)
    ∧ (process_files env files p fs).2.2 = ⟨none, 0, 0, 0⟩ := by
  have heq := pf_upload_error env files p fs e h
  refine ⟨by rw [heq], ?_, by rw [heq]⟩
  rw [← String.append_assoc]
  congr 1

/-- C5 witness. -/
theorem c5_witness :
    uploadResult envUploadRaises ["a.pdf"] = .error "boom"
    ∧ ((process_files envUploadRaises ["a.pdf"] "out/a.pdf" emptyFS).1
          = .ok ⟨some ["a.pdf"], false, "upload failed: " ++ "boom"⟩
        ∧ "upload failed: " ++ "boom" = "upload failed:" ++ (" " ++ "boom")
        ∧ (process_files envUploadRaises ["a.pdf"] "out/a.pdf" emptyFS).2.2
            = ⟨none, 0, 0, 0⟩) :=
  ⟨by decide,
   c5_submit_failure_short_circuits envUploadRaises ["a.pdf"] "out/a.pdf"
     emptyFS "boom" (by decide)⟩

/-- C3: a Job whose poll attempts never report ready makes exactly
`timeout_sec / 3` poll attempts (20 for the default 60-unit timeout), with
a fixed 3-unit sleep per attempt, then terminates with message exactly
"timeout" and performs no fetch call. -/
theorem c3_poll_budget_exhaustion (env : JobEnv) (files : List String)
    (p : String) (fs : FS) (tok : Option String)
    (hup : uploadResult env files = .ok tok)
    (hpoll : ∀ i, env.poll i = none) :
    (∀ t, poll_until_ready env.poll t = (none, t / 3, 3 * (t / 3)))
    ∧ (process_files env files p fs).1 = .ok ⟨some files, false, "timeout"⟩
    ∧ (process_files env files p fs).2.2.pollAttempts = 20
    ∧ (process_files env files p fs).2.2.sleepUnits
        = 3 * (process_files env files p fs).2.2.pollAttempts
    ∧ (process_files env files p fs).2.2.fetchCalls = 0 := by
  have hall : ∀ t, poll_until_ready env.poll t = (none, t / 3, 3 * (t / 3)) :=
    fun t => poll_until_ready_all_none env.poll t hpoll
  have hurl : urlFalsy (poll_until_ready env.poll 60).1 = true := by
    rw [hall 60]
    rfl
  have heq := pf_timeout env files p fs tok hup hurl
  refine ⟨hall, by rw [heq], ?_, ?_, by rw [heq]⟩
  · rw [heq]
    show (poll_until_ready env.poll 60).2.1 = 20
    rw [hall 60]
  · rw [heq]
    show (poll_until_ready env.poll 60).2.2
        = 3 * (poll_until_ready env.poll 60).2.1
    rw [hall 60]

/-- C3 witness. -/
theorem c3_witness :
    uploadResult envNeverReady ["a.pdf"] = .ok (some "tok")
    ∧ ((process_files envNeverReady ["a.pdf"] "out/a.pdf" emptyFS).1
          = .ok ⟨some ["a.pdf"], false, "timeout"⟩
        ∧ (process_files envNeverReady ["a.pdf"] "out/a.pdf" emptyFS).2.2.pollAttempts
            = 20
        ∧ (process_files envNeverReady ["a.pdf"] "out/a.pdf" emptyFS).2.2.fetchCalls
            = 0) :=
  ⟨by decide,
   ⟨(c3_poll_budget_exhaustion envNeverReady ["a.pdf"] "out/a.pdf" emptyFS
       (some "tok") (by decide) (fun _ => rfl)).2.1,
    (c3_poll_budget_exhaustion envNeverReady ["a.pdf"] "out/a.pdf" emptyFS
       (some "tok") (by decide) (fun _ => rfl)).2.2.1,
    (c3_poll_budget_exhaustion envNeverReady ["a.pdf"] "out/a.pdf" emptyFS
       (some "tok") (by decide) (fun _ => rfl)).2.2.2.2⟩⟩

/-- C9: when a poll attempt receives a successful response whose `url`
field is the empty string (the earlier attempts being not ready), the
poll loop returns that empty string, yet the Job terminates with message
"timeout" and performs no fetch — indistinguishable from an exhausted
attempt budget. -/
theorem c9_empty_url_reported_as_timeout (env : JobEnv) (files : List String)
    (p : String) (fs : FS) (tok : Option String) (k : Nat)
    (hup : uploadResult env files = .ok tok)
    (hk : k < 20) (hu : env.poll k = some "")
    (hbefore : ∀ j, j < k → env.poll j = none) :
    (poll_until_ready env.poll 60).1 = some ""
    ∧ (process_files env files p fs).1 = .ok ⟨some files, false, "timeout"⟩
    ∧ (process_files env files p fs).2.2.fetchCalls = 0
    ∧ (process_files env files p fs).2.1 = fs := by
  have hfirst : pollLoop env.poll 0 20 = (some "", k + 1, 3 * k) :=
    pollLoop_first env.poll 20 0 k "" hk (by simpa using hu)
      (fun j hj => by simpa using hbefore j hj)
  have hp : poll_until_ready env.poll 60 = (some "", k + 1, 3 * k) := hfirst
  have hurl : urlFalsy (poll_until_ready env.poll 60).1 = true := by
    rw [hp]
    rfl
  have heq := pf_timeout env files p fs tok hup hurl
  exact ⟨by rw [hp], by rw [heq], by rw [heq], by rw [heq]⟩

/-- C9 witness. -/
theorem c9_witness :
    uploadResult envEmptyUrl ["a.pdf"] = .ok (some "tok")
    ∧ envEmptyUrl.poll 0 = some ""
    ∧ ((poll_until_ready envEmptyUrl.poll 60).1 = some ""
        ∧ (process_files envEmptyUrl ["a.pdf"] "out/a.pdf" emptyFS).1
            = .ok ⟨some ["a.pdf"], false, "timeout"⟩
        ∧ (process_files envEmptyUrl ["a.pdf"] "out/a.pdf" emptyFS).2.2.fetchCalls
            = 0) :=
  ⟨by decide, rfl,
   ⟨(c9_empty_url_reported_as_timeout envEmptyUrl ["a.pdf"] "out/a.pdf"
       emptyFS (some "tok") 0 (by decide) (by decide) rfl
       (fun j hj => absurd hj (Nat.not_lt_zero j))).1,
    (c9_empty_url_reported_as_timeout envEmptyUrl ["a.pdf"] "out/a.pdf"
       emptyFS (some "tok") 0 (by decide) (by decide) rfl
       (fun j hj => absurd hj (Nat.not_lt_zero j))).2.1,
    (c9_empty_url_reported_as_timeout envEmptyUrl ["a.pdf"] "out/a.pdf"
       emptyFS (some "tok") 0 (by decide) (by decide) rfl
       (fun j hj => absurd hj (Nat.not_lt_zero j))).2.2.1⟩⟩

/-- C6: a Job whose fetch call fails after a successful poll (a ready,
non-empty url) terminates with `success = false` and message exactly
"download failed", and leaves the file system — in particular any
pre-existing file at its output path — unchanged. -/
theorem c6_download_failure_writes_nothing (env : JobEnv)
    (files : List String) (p : String) (fs : FS) (tok : Option String)
    (url d : String)
    (hup : uploadResult env files = .ok tok)
    (hurl : (poll_until_ready env.poll 60).1 = some url) (hne : url ≠ "")
    (hdl : env.download = .error d) :
    (process_files env files p fs).1
        = .ok ⟨some files, false, "download failed"⟩
    ∧ (process_files env files p fs).2.1 = fs
    ∧ (process_files env files p fs).2.1 p = fs p := by
  have hfalsy : urlFalsy (poll_until_ready env.poll 60).1 = false := by
    rw [hurl]
    simp [urlFalsy, hne]
  have heq := pf_download_error env files p fs tok d hup hfalsy hdl
  exact ⟨by rw [heq], by rw [heq], by rw [heq]⟩

/-- C6 witness. -/
theorem c6_witness :
    uploadResult envDownloadRaises ["a.pdf"] = .ok (some "tok")
    ∧ (poll_until_ready envDownloadRaises.poll 60).1 = some "http://res"
    ∧ envDownloadRaises.download = .error "dderr"
    ∧ ((process_files envDownloadRaises ["a.pdf"] "out/a.pdf" emptyFS).1
          = .ok ⟨some ["a.pdf"], false, "download failed"⟩
        ∧ (process_files envDownloadRaises ["a.pdf"] "out/a.pdf" emptyFS).2.1
            = emptyFS) :=
  ⟨by decide, rfl, rfl,
   ⟨(c6_download_failure_writes_nothing envDownloadRaises ["a.pdf"]
       "out/a.pdf" emptyFS (some "tok") "http://res" "dderr" (by decide) rfl
       (by decide) rfl).1,
    (c6_download_failure_writes_nothing envDownloadRaises ["a.pdf"]
       "out/a.pdf" emptyFS (some "tok") "http://res" "dderr" (by decide) rfl
       (by decide) rfl).2.1⟩⟩

/-- C7: a Job's outcome has `success = true` only when submit, poll and
fetch all succeeded and the returned bytes were written to the Job's
output path (replacing any existing file there), and then the outcome's
message equals the output path; conversely that is exactly the success
path. -/
theorem c7_sole_success_path (env : JobEnv) (files : List String)
    (p : String) (fs : FS) :
    (∀ o fs1 tr, process_files env files p fs = (.ok o, fs1, tr) →
        o.success = true →
        o.msg = p
        ∧ (∃ tok, uploadResult env files = .ok tok)
        ∧ (∃ url, (poll_until_ready env.poll 60).1 = some url ∧ url ≠ "")
        ∧ (∃ content, env.download = .ok content ∧ env.writeFails = false
            ∧ fs1 = setFile fs p content))
    ∧ (∀ tok content, uploadResult env files = .ok tok →
        urlFalsy (poll_until_ready env.poll 60).1 = false →
        env.download = .ok content → env.writeFails = false →
        process_files env files p fs
          = (.ok ⟨some files, true, p⟩, setFile fs p content,
             ⟨some tok, (poll_until_ready env.poll 60).2.1,
              (poll_until_ready env.poll 60).2.2, 1⟩)) := by
  constructor
  · intro o fs1 tr hproc hsucc
    cases hup : uploadResult env files with
    | error e =>
      rw [pf_upload_error env files p fs e hup] at hproc
      simp only [Prod.mk.injEq, Except.ok.injEq] at hproc
      rw [← hproc.1] at hsucc
      simp at hsucc
    | ok tok =>
      cases hurl : urlFalsy (poll_until_ready env.poll 60).1 with
      | true =>
        rw [pf_timeout env files p fs tok hup hurl] at hproc
        simp only [Prod.mk.injEq, Except.ok.injEq] at hproc
        rw [← hproc.1] at hsucc
        simp at hsucc
      | false =>
        cases hd : env.download with
        | error d =>
          rw [pf_download_error env files p fs tok d hup hurl hd] at hproc
          simp only [Prod.mk.injEq, Except.ok.injEq] at hproc
          rw [← hproc.1] at hsucc
          simp at hsucc
        | ok content =>
          cases hw : env.writeFails with
          | true =>
            rw [pf_write_error env files p fs tok content hup hurl hd hw]
              at hproc
            simp at hproc
          | false =>
            rw [pf_success env files p fs tok content hup hurl hd hw] at hproc
            simp only [Prod.mk.injEq, Except.ok.injEq] at hproc
            obtain ⟨ho, hfs1, htr⟩ := hproc
            refine ⟨by rw [← ho], ⟨tok, rfl⟩, ?_,
              content, rfl, rfl, hfs1.symm⟩
            cases hu : (poll_until_ready env.poll 60).1 with
            | none =>
              rw [hu] at hurl
              simp [urlFalsy] at hurl
            | some url =>
              refine ⟨url, rfl, ?_⟩
              rw [hu] at hurl
              simpa [urlFalsy] using hurl
  · intro tok content h1 h2 h3 h4
    exact pf_success env files p fs tok content h1 h2 h3 h4

/-- C7 witness. -/
theorem c7_witness :
    uploadResult envHappy ["a.pdf"] = .ok (some "tok")
    ∧ urlFalsy (poll_until_ready envHappy.poll 60).1 = false
    ∧ envHappy.download = .ok [7, 7]
    ∧ envHappy.writeFails = false
    ∧ process_files envHappy ["a.pdf"] "out/a.pdf" emptyFS
        = (.ok ⟨some ["a.pdf"], true, "out/a.pdf"⟩,
           setFile emptyFS "out/a.pdf" [7, 7],
           ⟨some (some "tok"), (poll_until_ready envHappy.poll 60).2.1,
            (poll_until_ready envHappy.poll 60).2.2, 1⟩) :=
  ⟨by decide, rfl, rfl, rfl,
   (c7_sole_success_path envHappy ["a.pdf"] "out/a.pdf" emptyFS).2
     (some "tok") [7, 7] (by decide) rfl rfl rfl⟩

/-- C1 counterexample: with an upload response that merely lacks the token
field, submit does not fail with an upload error — the Job proceeds to
poll with the absent token (`polledWith = some none`, 20 attempts) and
ends with message "timeout", which does not start with "upload failed:". -/
theorem c1_counterexample :
    uploadResult envNoToken ["a.pdf"] = .ok none
    ∧ (process_files envNoToken ["a.pdf"] "out/a.pdf" emptyFS).1
        = .ok ⟨some ["a.pdf"], false, "timeout"⟩
    ∧ (process_files envNoToken ["a.pdf"] "out/a.pdf" emptyFS).2.2
        = ⟨some none, 20, 60, 0⟩
    ∧ ("upload failed:").isPrefixOf "timeout" = false := by
  exact ⟨by decide, by decide, by decide, by decide⟩

/-- C1 (amended): a submit call that suffers a transport error or
non-success HTTP status fails, so the Job goes to Failed with a message
starting "upload failed:" (followed by the cause) and never polls; but
when the upload response merely lacks the token field, submit returns an
absent token without failing, and the Job does proceed to poll with that
absent token (at least one attempt). -/
theorem c1_upload_error_vs_missing_token (env : JobEnv)
    (files : List String) (p : String) (fs : FS) :
    (∀ e, uploadResult env files = .error e →
        (process_files env files p fs).1
            = .ok ⟨some files, false, "upload failed:" ++ (" " ++ e)⟩
        ∧ (process_files env files p fs).2.2 = ⟨none, 0, 0, 0⟩)
    ∧ (uploadResult env files = .ok none →
        (process_files env files p fs).2.2.polledWith = some none
        ∧ 1 ≤ (process_files env files p fs).2.2.pollAttempts) := by
  constructor
  · intro e h
    have heq := pf_upload_error env files p fs e h
    have hmsg : "upload failed: " ++ e = "upload failed:" ++ (" " ++ e) := by
      rw [← String.append_assoc]
      congr 1
    refine ⟨?_, by rw [heq]⟩
    rw [heq, ← hmsg]
  · intro h
    have hp := process_files_polls_after_upload env files p fs none h
    refine ⟨hp.1, ?_⟩
    rw [hp.2]
    exact poll_until_ready_attempts_pos env.poll

/-- C1 witness (for the amended claim's second part). -/
theorem c1_witness :
    uploadResult envNoToken ["b.pdf"] = .ok none
    ∧ ((process_files envNoToken ["b.pdf"] "out/b.pdf" emptyFS).2.2.polledWith
          = some none
        ∧ 1 ≤ (process_files envNoToken ["b.pdf"]
            "out/b.pdf" emptyFS).2.2.pollAttempts) :=
  ⟨by decide,
   (c1_upload_error_vs_missing_token envNoToken ["b.pdf"] "out/b.pdf"
     emptyFS).2 (by decide)⟩

/-- C2 counterexample: in aggregate mode, an error escaping the Job's own
handling (the output write raising after a successful upload, poll and
fetch) terminates the whole run: `main` propagates the exception and no
JobOutcome is produced. -/
theorem c2_counterexample :
    main_aggregate envWriteRaises ["a.pdf", "b.pdf"] "out/agg.pdf" emptyFS
        = .error "write failed: out/agg.pdf"
    ∧ (main_aggregate envWriteRaises ["a.pdf", "b.pdf"] "out/agg.pdf"
          emptyFS).toOption = none := by
  exact ⟨rfl, rfl⟩

/-- C2 (amended): every taxonomy error (upload failure, poll timeout,
download failure) is recovered inside the Job and converted into a
JobOutcome in both modes (whenever the output write does not raise, the
Job always returns an outcome); an error escaping the Job's own handling
is recorded by the Scheduler as a JobOutcome with `success = false` and
message "error: <cause>" in per-file mode — where every dispatched job
yields exactly one recorded outcome — but in aggregate mode such an error
propagates and terminates the run. -/
theorem c2_error_conversion (envOf : String → JobEnv) (outputDir : String)
    (order : List String) (fs : FS) (env : JobEnv) (files : List String)
    (p : String) (fs2 : FS) :
    (env.writeFails = false → ∃ o, (process_files env files p fs2).1 = .ok o)
    ∧ (main_per_file envOf outputDir order fs).1
        = order.map (perFileOutcome envOf outputDir)
    ∧ (∀ file e,
        (process_files (envOf file) [file] (outputDir ++ "/" ++ file)
            emptyFS).1 = .error e →
        perFileOutcome envOf outputDir file = ⟨none, false, "error: " ++ e⟩)
    ∧ (∀ e, (process_files env files p fs2).1 = .error e →
        main_aggregate env files p fs2 = .error e) := by
  refine ⟨process_files_ok_of_no_write_failure env files p fs2,
    main_per_file_results envOf outputDir order fs, ?_, ?_⟩
  · intro file e h
    rw [perFileOutcome, h]
    rfl
  · intro e h
    rcases hpf : process_files env files p fs2 with ⟨r, fs3, tr⟩
    rw [hpf] at h
    simp only at h
    rw [h] at hpf
    simp [main_aggregate, hpf]

/-- C2 witness. -/
theorem c2_witness :
    ((process_files envWriteRaises ["a.pdf"] ("out" ++ "/" ++ "a.pdf")
          emptyFS).1 = .error "write failed: out/a.pdf"
        ∧ perFileOutcome (fun _ => envWriteRaises) "out" "a.pdf"
            = ⟨none, false, "error: " ++ "write failed: out/a.pdf"⟩)
    ∧ ((process_files envWriteRaises ["a.pdf"] "out/agg.pdf" emptyFS).1
          = .error "write failed: out/agg.pdf"
        ∧ main_aggregate envWriteRaises ["a.pdf"] "out/agg.pdf" emptyFS
            = .error "write failed: out/agg.pdf") :=
  ⟨⟨by decide,
    (c2_error_conversion (fun _ => envWriteRaises) "out" ["a.pdf"] emptyFS
      envHappy ["x.pdf"] "out/x.pdf" emptyFS).2.2.1 "a.pdf"
      "write failed: out/a.pdf" (by decide)⟩,
   ⟨by decide,
    (c2_error_conversion (fun _ => envWriteRaises) "out" ["a.pdf"] emptyFS
      envWriteRaises ["a.pdf"] "out/agg.pdf" emptyFS).2.2.2
      "write failed: out/agg.pdf" (by decide)⟩⟩

/-- C4 counterexample: in aggregate mode with a raising output write, the
run terminates with an exception and produces zero JobOutcomes, not
exactly one. -/
theorem c4_counterexample :
    main_aggregate envWriteRaises ["x.pdf"]
        "out/aggregated_filigrane_docs.pdf" emptyFS
      = .error "write failed: out/aggregated_filigrane_docs.pdf"
    ∧ (main_aggregate envWriteRaises ["x.pdf"]
        "out/aggregated_filigrane_docs.pdf" emptyFS).toOption = none := by
  exact ⟨rfl, rfl⟩

/-- C4 (amended): for every non-empty input list and completion order,
per-file mode produces exactly one JobOutcome per input file and one
report line per outcome; aggregate mode produces exactly one JobOutcome
total provided no unexpected error escapes the Job (in particular when
the output write does not raise) — when one escapes, the aggregate run
terminates with no JobOutcome at all. -/
theorem c4_outcome_counts (envOf : String → JobEnv) (outputDir : String)
    (order files : List String) (fs : FS) (horder : order.Perm files)
    (env : JobEnv) (p : String) (fs2 : FS)
    (hw : env.writeFails = false) :
    (main_per_file envOf outputDir order fs).1.length = files.length
    ∧ (finalReport (main_per_file envOf outputDir order fs).1).length
        = files.length
    ∧ ∃ o fs3, main_aggregate env files p fs2 = .ok ([o], fs3) := by
  have hlen : (main_per_file envOf outputDir order fs).1.length
      = files.length := by
    rw [main_per_file_results, List.length_map]
    exact horder.length_eq
  refine ⟨hlen, ?_, ?_⟩
  · rw [finalReport, List.length_map]
    exact hlen
  · obtain ⟨o, ho⟩ := process_files_ok_of_no_write_failure env files p fs2 hw
    rcases hpf : process_files env files p fs2 with ⟨r, fs3, tr⟩
    rw [hpf] at ho
    simp only at ho
    rw [ho] at hpf
    exact ⟨o, fs3, by simp [main_aggregate, hpf]⟩

/-- C4 witness. -/
theorem c4_witness :
    List.Perm ["b.pdf", "a.pdf"] ["a.pdf", "b.pdf"]
    ∧ envHappy.writeFails = false
    ∧ ((main_per_file (fun _ => envHappy) "out" ["b.pdf", "a.pdf"]
          emptyFS).1.length = (["a.pdf", "b.pdf"] : List String).length
        ∧ (finalReport (main_per_file (fun _ => envHappy) "out"
            ["b.pdf", "a.pdf"] emptyFS).1).length
          = (["a.pdf", "b.pdf"] : List String).length) :=
  ⟨by decide, rfl,
   (c4_outcome_counts (fun _ => envHappy) "out" ["b.pdf", "a.pdf"]
     ["a.pdf", "b.pdf"] emptyFS (by decide) envHappy "out/agg.pdf" emptyFS
     rfl).1,
   (c4_outcome_counts (fun _ => envHappy) "out" ["b.pdf", "a.pdf"]
     ["a.pdf", "b.pdf"] emptyFS (by decide) envHappy "out/agg.pdf" emptyFS
     rfl).2.1⟩

/-- C10: when a per-file worker raises an unexpected error, the fallback
outcome the scheduler records carries no file names (its `files` field is
absent — the dict stores `None` under the key `"file"` instead of a name
list under `"files"`), so the report prints "???" in place of the file's
name and the file's identity is lost from the report. -/
theorem c10_worker_error_loses_file_identity (envOf : String → JobEnv)
    (outputDir : String) (order : List String) (fs : FS) (file e : String)
    (herr : (process_files (envOf file) [file] (outputDir ++ "/" ++ file)
        emptyFS).1 = .error e) :
    perFileOutcome envOf outputDir file = ⟨none, false, "error: " ++ e⟩
    ∧ (main_per_file envOf outputDir order fs).1
        = order.map (perFileOutcome envOf outputDir)
    ∧ fileNamesField ⟨none, false, "error: " ++ e⟩ = "???"
    ∧ reportLine ⟨none, false, "error: " ++ e⟩
        = "  ❌ ???: " ++ ("error: " ++ e) := by
  refine ⟨by rw [perFileOutcome, herr]; rfl,
    main_per_file_results envOf outputDir order fs, rfl, ?_⟩
  simp only [reportLine, fileNamesField, Bool.false_eq_true, if_false]
  congr 1

/-- C10 witness. -/
theorem c10_witness :
    (process_files envWriteRaises ["a.pdf"] ("out" ++ "/" ++ "a.pdf")
        emptyFS).1 = .error "write failed: out/a.pdf"
    ∧ (perFileOutcome (fun _ => envWriteRaises) "out" "a.pdf"
          = ⟨none, false, "error: " ++ "write failed: out/a.pdf"⟩
        ∧ (main_per_file (fun _ => envWriteRaises) "out" ["a.pdf"]
            emptyFS).1
          = ["a.pdf"].map (perFileOutcome (fun _ => envWriteRaises) "out")
        ∧ fileNamesField ⟨none, false, "error: " ++ "write failed: out/a.pdf"⟩
          = "???"
        ∧ reportLine ⟨none, false, "error: " ++ "write failed: out/a.pdf"⟩
          = "  ❌ ???: " ++ ("error: " ++ "write failed: out/a.pdf")) :=
  ⟨by decide,
   c10_worker_error_loses_file_identity (fun _ => envWriteRaises) "out"
     ["a.pdf"] emptyFS "a.pdf" "write failed: out/a.pdf" (by decide)⟩

end BulkFiligrane
